import Mathlib

/-!
Shallow embedding of libpersimq (persimq.c), a persistent single-process
message queue over a fixed-size file treated as a circular byte buffer.

Modelling conventions:
* The backing file is a total function `Nat → Nat` from byte offsets to byte
  values (values are < 256 for any file a real execution can produce).
* `off_t` / `size_t` / `uint64_t` quantities are `Nat`; the only place where
  unsigned wraparound is observable in the C code on in-range states is
  `PERSIMQ_bytes_free`, which is modelled with an explicit `% 2 ^ 64`.
* The build platform is little-endian (gcc, x86-64/ARM Linux per the
  Makefile), so the packed on-disk structs serialize multi-byte integers in
  little-endian order: `sizeof(TFileHeader) = 45` (packed 4+8+8+8+8+8+1) and
  `sizeof(TMessageHeader) = 8` (3+1+4, no padding).
* POSIX I/O is total in the model for positive transfer counts: the
  `multiread`/`multiwrite` retry loops transfer the requested bytes whenever
  the count is positive, and fail deterministically on a count of zero (the
  do-while body issues one zero-byte syscall and treats its non-positive
  result as an error); `lseek` succeeds.  The remaining failure paths of
  `wrapped_io` are its explicit length check and that zero-length case.
* An open file descriptor is modelled by `fd ≠ 0`, matching the code's
  convention that `fd = 0` means an uninitialized handle.
-/

/-- sizeof(TFileHeader): the packed header occupies bytes [0, 45) of the file.
This is also `wrap_lo_margin`, the low margin of the circular data region. -/
def wrap_lo_margin : Nat := 45

/-- sizeof(TMessageHeader): 3-byte tag, 1 CRC byte, 4-byte little-endian size. -/
def message_header_size : Nat := 8

/-- One iteration of the inner bit loop of eval_crc8:
crc = (crc & 0x80) ? (crc << 1) ^ 0x8C : (crc << 1), truncated to uint8_t. -/
def crc8_bit_step (crc : Nat) : Nat :=
  if 128 ≤ crc % 256 then (Nat.xor (crc * 2) 0x8C) % 256 else (crc * 2) % 256

/-- The 8 bit iterations applied after xoring in one data byte. -/
def crc8_byte_step (crc b : Nat) : Nat :=
  (List.range 8).foldl (fun c _ => crc8_bit_step c) (Nat.xor crc b)

/-- eval_crc8 from persimq.c: CRC8 with polynomial 0x8C over a byte span. -/
def eval_crc8 (data : List Nat) : Nat :=
  data.foldl crc8_byte_step 0

/-- offset_roll from persimq.c: maps an offset into the circular data region
[wrap_lo_margin, wrap_hi_margin) after adding `increment`.  Note that the C
ternary assigns `wrap_lo_margin` itself (not 0) to `sub_offset` when the
incoming offset is below the low margin. -/
def offset_roll (current_offset wrap_hi_margin increment : Nat) : Nat :=
  (((if current_offset < wrap_lo_margin then wrap_lo_margin
      else current_offset - wrap_lo_margin) + increment)
    % (wrap_hi_margin - wrap_lo_margin)) + wrap_lo_margin

/-- Overwrite the byte range [off, off + len) of a file with `data`
(data byte i goes to offset off + i); a single contiguous multiwrite. -/
def writeBytes (file : Nat → Nat) (off : Nat) (data : Nat → Nat) (len : Nat) :
    Nat → Nat :=
  fun p => if off ≤ p ∧ p < off + len then data (p - off) else file p

/-- Read the byte range [off, off + len) of a file; a contiguous multiread. -/
def readBytes (file : Nat → Nat) (off len : Nat) : List Nat :=
  (List.range len).map (fun i => file (off + i))

/-- wrapped_io from persimq.c with do_write = true.  Returns `none` on the
hard length check (length of at least the data-region capacity) and on a
zero-length request: the multiwrite do-while loop issues one write of count
0, sees a non-positive result and reports failure.  Otherwise it returns the
updated file together with the next offset `offset_roll offset hi length`.
The offset is first normalized by a zero-increment roll; if the requested
length fits below the high margin one contiguous write happens, otherwise
the transfer is split at the high margin and the rest lands at
wrap_lo_margin (both split chunks are then nonempty, so only the
single-chunk branch can issue the failing zero-byte write). -/
def wrapped_io_write (file : Nat → Nat) (data : Nat → Nat) (length offset wrap_hi_margin : Nat) :
    Option ((Nat → Nat) × Nat) :=
  let off2 := offset_roll offset wrap_hi_margin 0
  let first_chunk_size := wrap_hi_margin - off2
  if wrap_hi_margin - wrap_lo_margin ≤ length then none
  else if length ≤ first_chunk_size then
    if length = 0 then none
    else some (writeBytes file off2 data length, offset_roll off2 wrap_hi_margin length)
  else
    some (writeBytes (writeBytes file off2 data first_chunk_size)
            wrap_lo_margin (fun i => data (i + first_chunk_size)) (length - first_chunk_size),
          offset_roll off2 wrap_hi_margin length)

/-- wrapped_io from persimq.c with do_write = false: same structure as the
write direction, returning the bytes read instead of a new file; a
zero-length request likewise fails because the multiread do-while loop
treats the non-positive result of its one zero-byte read as an error. -/
def wrapped_io_read (file : Nat → Nat) (length offset wrap_hi_margin : Nat) :
    Option (List Nat × Nat) :=
  let off2 := offset_roll offset wrap_hi_margin 0
  let first_chunk_size := wrap_hi_margin - off2
  if wrap_hi_margin - wrap_lo_margin ≤ length then none
  else if length ≤ first_chunk_size then
    if length = 0 then none
    else some (readBytes file off2 length, offset_roll off2 wrap_hi_margin length)
  else
    some (readBytes file off2 first_chunk_size ++
            readBytes file wrap_lo_margin (length - first_chunk_size),
          offset_roll off2 wrap_hi_margin length)

/-- T_PERSIMQ from persimq.h.  `fd = 0` encodes a closed/uninitialized handle. -/
structure T_PERSIMQ where
  fd : Nat
  append_ptr : Nat
  extract_ptr : Nat
  count_bytes : Nat
  count_messages : Nat
  file_size : Nat
deriving DecidableEq, Repr

/-- TFileHeader from persimq.c, as decoded from the first 45 file bytes. -/
structure TFileHeader where
  ID : List Nat
  append_ptr : Nat
  extract_ptr : Nat
  count_bytes : Nat
  count_messages : Nat
  file_size : Nat
  crc : Nat
deriving DecidableEq, Repr

/-- TMessageHeader from persimq.c, as decoded from 8 data-region bytes. -/
structure TMessageHeader where
  ID : List Nat
  message_crc : Nat
  message_size : Nat
deriving DecidableEq, Repr

/-- Little-endian serialization of a uint32_t struct field. -/
def le32_bytes (n : Nat) : List Nat :=
  [n % 256, n / 2 ^ 8 % 256, n / 2 ^ 16 % 256, n / 2 ^ 24 % 256]

/-- Little-endian serialization of a uint64_t struct field. -/
def le64_bytes (n : Nat) : List Nat :=
  [n % 256, n / 2 ^ 8 % 256, n / 2 ^ 16 % 256, n / 2 ^ 24 % 256,
   n / 2 ^ 32 % 256, n / 2 ^ 40 % 256, n / 2 ^ 48 % 256, n / 2 ^ 56 % 256]

/-- Little-endian decoding of 4 bytes into a uint32_t value. -/
def de32 (b0 b1 b2 b3 : Nat) : Nat :=
  b0 + 2 ^ 8 * b1 + 2 ^ 16 * b2 + 2 ^ 24 * b3

/-- Little-endian decoding of 8 bytes into a uint64_t value. -/
def de64 (b0 b1 b2 b3 b4 b5 b6 b7 : Nat) : Nat :=
  b0 + 2 ^ 8 * b1 + 2 ^ 16 * b2 + 2 ^ 24 * b3 +
    2 ^ 32 * b4 + 2 ^ 40 * b5 + 2 ^ 48 * b6 + 2 ^ 56 * b7

/-- The multiread of the packed TFileHeader struct from file offset 0. -/
def readFileHeader (file : Nat → Nat) : TFileHeader :=
  { ID := [file 0, file 1, file 2, file 3]
    append_ptr := de64 (file 4) (file 5) (file 6) (file 7)
                      (file 8) (file 9) (file 10) (file 11)
    extract_ptr := de64 (file 12) (file 13) (file 14) (file 15)
                       (file 16) (file 17) (file 18) (file 19)
    count_bytes := de64 (file 20) (file 21) (file 22) (file 23)
                       (file 24) (file 25) (file 26) (file 27)
    count_messages := de64 (file 28) (file 29) (file 30) (file 31)
                          (file 32) (file 33) (file 34) (file 35)
    file_size := de64 (file 36) (file 37) (file 38) (file 39)
                     (file 40) (file 41) (file 42) (file 43)
    crc := file 44 }

/-- The byte image of "lPmQ", the magic tag of TFileHeader. -/
def fileMagic : List Nat := [108, 80, 109, 81]

/-- The byte image of "PMQ", the magic tag of TMessageHeader. -/
def messageMagic : List Nat := [80, 77, 81]

/-- PERSIMQ_open from persimq.c, for the in-model failure-free I/O paths:
fails only the up-front sanity check; otherwise reads the header from the
(already size-adjusted, zero-extended) file and either adopts it (magic tag,
CRC over the first 44 bytes, and recorded file size all match) or resets the
handle to the empty state. -/
def PERSIMQ_open (file : Nat → Nat) (mqfile_size : Nat) : Option T_PERSIMQ :=
  if mqfile_size ≤ wrap_lo_margin + message_header_size + 1 then none
  else
    let header := readFileHeader file
    let crc := eval_crc8 (readBytes file 0 44)
    if header.ID = fileMagic ∧ crc = header.crc ∧ mqfile_size = header.file_size then
      some { fd := 1, append_ptr := header.append_ptr, extract_ptr := header.extract_ptr,
             count_bytes := header.count_bytes, count_messages := header.count_messages,
             file_size := mqfile_size }
    else
      some { fd := 1, append_ptr := wrap_lo_margin, extract_ptr := wrap_lo_margin,
             count_bytes := 0, count_messages := 0, file_size := mqfile_size }

/-- The serialized TFileHeader image written by PERSIMQ_sync: the magic tag,
the five 64-bit fields, and the CRC over the 44 preceding bytes. -/
def fileHeaderBytesOf (mq : T_PERSIMQ) : List Nat :=
  let core := fileMagic ++ le64_bytes mq.append_ptr ++ le64_bytes mq.extract_ptr ++
    le64_bytes mq.count_bytes ++ le64_bytes mq.count_messages ++ le64_bytes mq.file_size
  core ++ [eval_crc8 core]

/-- PERSIMQ_sync from persimq.c: fails on a closed handle, otherwise writes
the 45 header bytes at file offset 0 (the fsync barrier has no in-model
content). -/
def PERSIMQ_sync (mq : T_PERSIMQ) (file : Nat → Nat) : Bool × (Nat → Nat) :=
  if mq.fd = 0 then (false, file)
  else (true, writeBytes file 0 (fun i => (fileHeaderBytesOf mq).getD i 0) wrap_lo_margin)

/-- PERSIMQ_close from persimq.c: sync then release the descriptor and lock
(the release has no in-model content beyond the sync result). -/
def PERSIMQ_close (mq : T_PERSIMQ) (file : Nat → Nat) : Bool × (Nat → Nat) :=
  if mq.fd = 0 then (true, file)
  else PERSIMQ_sync mq file

/-- PERSIMQ_clear from persimq.c: reset pointers and counts to the empty
state and sync immediately. -/
def PERSIMQ_clear (mq : T_PERSIMQ) (file : Nat → Nat) : Bool × T_PERSIMQ × (Nat → Nat) :=
  if mq.fd = 0 then (false, mq, file)
  else
    let mq2 := { mq with append_ptr := wrap_lo_margin, extract_ptr := wrap_lo_margin,
                         count_bytes := 0, count_messages := 0 }
    let s := PERSIMQ_sync mq2 file
    (s.1, mq2, s.2)

/-- PERSIMQ_is_empty from persimq.c: !(mq->count_bytes). -/
def PERSIMQ_is_empty (mq : T_PERSIMQ) : Bool :=
  mq.count_bytes == 0

/-- PERSIMQ_messages_available from persimq.c. -/
def PERSIMQ_messages_available (mq : T_PERSIMQ) : Nat :=
  mq.count_messages

/-- PERSIMQ_bytes_available from persimq.c (payload bytes only). -/
def PERSIMQ_bytes_available (mq : T_PERSIMQ) : Nat :=
  mq.count_bytes - message_header_size * mq.count_messages

/-- PERSIMQ_bytes_free from persimq.c: the size_t expression
file_size - (count_bytes + sizeof(TFileHeader)), with unsigned 64-bit
wraparound made explicit. -/
def PERSIMQ_bytes_free (mq : T_PERSIMQ) : Nat :=
  (mq.file_size + 2 ^ 64 - (mq.count_bytes + wrap_lo_margin)) % 2 ^ 64

/-- The serialized TMessageHeader image pushed in front of a payload:
"PMQ", the payload CRC, and the little-endian uint32 payload length. -/
def msgHeaderBytesOf (message : List Nat) : List Nat :=
  messageMagic ++ [eval_crc8 message] ++ le32_bytes message.length

/-- PERSIMQ_push from persimq.c.  Returns (result, handle, file).  Fails
without touching anything on a closed handle or when bytes_free is smaller
than sizeof(TMessageHeader) + message_size; after that the header and the
payload are written through wrapped_io at the append pointer, and a wrapped_io
failure closes the descriptor (fd := 0) exactly as the C error paths do. -/
def PERSIMQ_push (mq : T_PERSIMQ) (file : Nat → Nat) (message : List Nat) :
    Bool × T_PERSIMQ × (Nat → Nat) :=
  if mq.fd = 0 then (false, mq, file)
  else if PERSIMQ_bytes_free mq < message_header_size + message.length then (false, mq, file)
  else
    match wrapped_io_write file (fun i => (msgHeaderBytesOf message).getD i 0)
        message_header_size mq.append_ptr mq.file_size with
    | none => (false, { mq with fd := 0 }, file)
    | some (file1, _) =>
      match wrapped_io_write file1 (fun i => message.getD i 0) message.length
          (offset_roll mq.append_ptr mq.file_size message_header_size) mq.file_size with
      | none => (false, { mq with fd := 0 }, file1)
      | some (file2, next_append) =>
        (true, { mq with append_ptr := next_append,
                         count_messages := mq.count_messages + 1,
                         count_bytes := mq.count_bytes + (message_header_size + message.length) },
         file2)

/-- Decode a TMessageHeader from its 8 serialized bytes. -/
def parseMsgHeader (bytes : List Nat) : TMessageHeader :=
  { ID := bytes.take 3
    message_crc := bytes.getD 3 0
    message_size := de32 (bytes.getD 4 0) (bytes.getD 5 0) (bytes.getD 6 0) (bytes.getD 7 0) }

/-- PERSIMQ_read_message_header from persimq.c: sanitize the offset, read the
8 header bytes through wrapped_io, check the "PMQ" tag; on a read failure or
tag mismatch the descriptor is closed (fd := 0) and `none` is returned. -/
def PERSIMQ_read_message_header (mq : T_PERSIMQ) (file : Nat → Nat) (offset : Nat) :
    Option TMessageHeader × T_PERSIMQ :=
  if mq.fd = 0 then (none, mq)
  else
    let off2 := offset_roll offset mq.file_size 0
    match wrapped_io_read file message_header_size off2 mq.file_size with
    | none => (none, { mq with fd := 0 })
    | some (bytes, _) =>
      let header := parseMsgHeader bytes
      if header.ID = messageMagic then (some header, mq)
      else (none, { mq with fd := 0 })

/-- PERSIMQ_pop from persimq.c: fails on a closed handle or an empty queue;
otherwise reads the message header at the extract pointer and, on success,
rolls the extract pointer past header+payload and decrements both counts. -/
def PERSIMQ_pop (mq : T_PERSIMQ) (file : Nat → Nat) : Bool × T_PERSIMQ :=
  if mq.fd = 0 then (false, mq)
  else if PERSIMQ_messages_available mq = 0 then (false, mq)
  else
    match PERSIMQ_read_message_header mq file mq.extract_ptr with
    | (none, mq2) => (false, mq2)
    | (some header, mq2) =>
      (true, { mq2 with
        extract_ptr := offset_roll mq2.extract_ptr mq2.file_size
          (header.message_size + message_header_size),
        count_bytes := mq2.count_bytes - (header.message_size + message_header_size),
        count_messages := mq2.count_messages - 1 })

/-- The one-by-one loop of PERSIMQ_pop_n (the slow path):
for (i = 0; i < pop_count; i++) result &= PERSIMQ_pop(mq). -/
def pop_n_loop (file : Nat → Nat) : Nat → T_PERSIMQ → Bool × T_PERSIMQ
  | 0, mq => (true, mq)
  | n + 1, mq =>
    let p := PERSIMQ_pop mq file
    let r := pop_n_loop file n p.2
    (p.1 && r.1, r.2)

/-- PERSIMQ_pop_n from persimq.c.  Note the C function checks neither the
descriptor nor emptiness before taking the fast path: whenever
pop_count >= count_messages it just assigns extract_ptr := append_ptr, zeroes
the counts and returns true. -/
def PERSIMQ_pop_n (mq : T_PERSIMQ) (file : Nat → Nat) (pop_count : Nat) : Bool × T_PERSIMQ :=
  if mq.count_messages ≤ pop_count then
    (true, { mq with extract_ptr := mq.append_ptr, count_bytes := 0, count_messages := 0 })
  else
    pop_n_loop file pop_count mq

/-- PERSIMQ_read_message_data from persimq.c: read message_size bytes through
wrapped_io and check the payload CRC; a read failure or CRC mismatch closes
the descriptor (fd := 0) and returns `none`, otherwise the payload bytes. -/
def PERSIMQ_read_message_data (mq : T_PERSIMQ) (file : Nat → Nat)
    (message_size message_crc extract_ptr : Nat) : Option (List Nat) × T_PERSIMQ :=
  match wrapped_io_read file message_size extract_ptr mq.file_size with
  | none => (none, { mq with fd := 0 })
  | some (bytes, _) =>
    if eval_crc8 bytes = message_crc then (some bytes, mq)
    else (none, { mq with fd := 0 })

/-- PERSIMQ_get from persimq.c.  Returns (result, handle, value stored through
the message_size out-parameter if any, payload copied to the buffer if any).
The recorded message size is stored through the out-parameter before the
buffer-capacity check, so a too-small buffer still reports the needed size. -/
def PERSIMQ_get (mq : T_PERSIMQ) (file : Nat → Nat) (buffer_size : Nat) :
    Bool × T_PERSIMQ × Option Nat × Option (List Nat) :=
  if mq.fd = 0 then (false, mq, none, none)
  else if PERSIMQ_messages_available mq = 0 then (false, mq, none, none)
  else
    match PERSIMQ_read_message_header mq file mq.extract_ptr with
    | (none, mq2) => (false, mq2, none, none)
    | (some header, mq2) =>
      if buffer_size < header.message_size then (false, mq2, some header.message_size, none)
      else
        match PERSIMQ_read_message_data mq2 file header.message_size header.message_crc
            (mq2.extract_ptr + message_header_size) with
        | (none, mq3) => (false, mq3, some header.message_size, none)
        | (some payload, mq3) => (true, mq3, some header.message_size, some payload)

/-- The while loop of PERSIMQ_get_all.  The fuel is min(count_messages,
max_messages) - message_idx, which the loop condition decrements by one per
iteration.  Result fields: (reached the out-parameter epilogue, result flag,
handle, payload bytes appended to the caller buffer, remaining buffer_size,
message_idx).  A header failure returns from the C function before the
out-parameters are written (first flag false); a data CRC failure breaks with
result = false but still writes the out-parameters. -/
def get_all_loop (file : Nat → Nat) : Nat → T_PERSIMQ → Nat → Nat → Nat →
    Bool × Bool × T_PERSIMQ × List Nat × Nat × Nat
  | 0, mq, _, buffer_size, message_idx => (true, true, mq, [], buffer_size, message_idx)
  | fuel + 1, mq, current_ptr, buffer_size, message_idx =>
    let idx2 := message_idx + 1
    match PERSIMQ_read_message_header mq file current_ptr with
    | (none, mq2) => (false, false, mq2, [], buffer_size, idx2)
    | (some header, mq2) =>
      if buffer_size < header.message_size then (true, true, mq2, [], buffer_size, idx2)
      else
        match PERSIMQ_read_message_data mq2 file header.message_size header.message_crc
            (current_ptr + message_header_size) with
        | (none, mq3) => (true, false, mq3, [], buffer_size, idx2)
        | (some payload, mq3) =>
          let rest := get_all_loop file fuel mq3
            (offset_roll current_ptr mq3.file_size (header.message_size + message_header_size))
            (buffer_size - header.message_size) idx2
          (rest.1, rest.2.1, rest.2.2.1, payload ++ rest.2.2.2.1, rest.2.2.2.2)

/-- PERSIMQ_get_all from persimq.c.  Returns (result, handle, bytes copied to
the caller buffer, out-parameters total_size and messages_read when the
function reaches the epilogue that writes them). -/
def PERSIMQ_get_all (mq : T_PERSIMQ) (file : Nat → Nat) (buffer_size max_messages : Nat) :
    Bool × T_PERSIMQ × List Nat × Option (Nat × Nat) :=
  if mq.fd = 0 then (false, mq, [], none)
  else if PERSIMQ_messages_available mq = 0 then (false, mq, [], none)
  else
    let r := get_all_loop file (min mq.count_messages max_messages) mq
      mq.extract_ptr buffer_size 0
    if r.1 then
      (r.2.1, r.2.2.1, r.2.2.2.1, some (buffer_size - r.2.2.2.2.1, r.2.2.2.2.2))
    else
      (false, r.2.2.1, [], none)

/-- Modelled from the spec: the naive circular write over the data region,
placing data byte j at circular distance j forward from the (normalized)
start offset, for j < length; every other file byte is untouched.  This is
the reference against which wrapped_io_write is compared (claim C9). -/
def circWrite (file data : Nat → Nat) (length offset wrap_hi_margin : Nat) : Nat → Nat :=
  fun p =>
    if wrap_lo_margin ≤ p ∧ p < wrap_hi_margin ∧
        (p + (wrap_hi_margin - wrap_lo_margin) - wrap_lo_margin -
            (offset_roll offset wrap_hi_margin 0 - wrap_lo_margin))
          % (wrap_hi_margin - wrap_lo_margin) < length then
      data ((p + (wrap_hi_margin - wrap_lo_margin) - wrap_lo_margin -
            (offset_roll offset wrap_hi_margin 0 - wrap_lo_margin))
          % (wrap_hi_margin - wrap_lo_margin))
    else file p

/-- Modelled from the spec: the naive circular read over the data region,
byte i of the result being the file byte at circular distance i forward from
the (normalized) start offset.  Reference for wrapped_io_read (claim C9). -/
def circRead (file : Nat → Nat) (length offset wrap_hi_margin : Nat) : List Nat :=
  (List.range length).map (fun i => file (offset_roll offset wrap_hi_margin i))

/-- The 17-byte test payload "Test message !!!" including its terminating
NUL, as used by the spec's concrete scenario. -/
def testMessage : List Nat :=
  [84, 101, 115, 116, 32, 109, 101, 115, 115, 97, 103, 101, 32, 33, 33, 33, 0]

/-- The all-zero image of a freshly created queue file of any size. -/
def zeroFile : Nat → Nat := fun _ => 0

/-- The empty handle produced by opening a fresh (all-zero) 70-byte file. -/
def scenario70_mq0 : T_PERSIMQ :=
  { fd := 1, append_ptr := 45, extract_ptr := 45, count_bytes := 0, count_messages := 0,
    file_size := 70 }

/-- Pushing the test message onto the fresh 70-byte queue. -/
def scenario70_push : Bool × T_PERSIMQ × (Nat → Nat) :=
  PERSIMQ_push scenario70_mq0 zeroFile testMessage

/-- The file image after the push. -/
def scenario70_file1 : Nat → Nat := scenario70_push.2.2

/-- Closing (and thereby syncing) the queue after the push. -/
def scenario70_close : Bool × (Nat → Nat) :=
  PERSIMQ_close scenario70_push.2.1 scenario70_file1

/-- The file image after close, as reopened later. -/
def scenario70_file2 : Nat → Nat := scenario70_close.2

/-- The handle recovered by reopening the synced 70-byte file. -/
def scenario70_mq2 : T_PERSIMQ :=
  { fd := 1, append_ptr := 45, extract_ptr := 45, count_bytes := 25, count_messages := 1,
    file_size := 70 }

/-- Popping the single recovered message. -/
def scenario70_pop : Bool × T_PERSIMQ :=
  PERSIMQ_pop scenario70_mq2 scenario70_file2

/-- A 70-byte queue holding one intact 5-byte message [1,2,3,4,5] at the
data-region start (record bytes 45..57, append pointer just past it). -/
def mqOneSmall : T_PERSIMQ :=
  { fd := 1, append_ptr := 58, extract_ptr := 45, count_bytes := 13, count_messages := 1,
    file_size := 70 }

/-- The file image backing `mqOneSmall`: a valid "PMQ" record of length 5. -/
def fileOneSmall : Nat → Nat := fun p =>
  if p = 45 then 80 else if p = 46 then 77 else if p = 47 then 81
  else if p = 48 then eval_crc8 [1, 2, 3, 4, 5]
  else if p = 49 then 5
  else if p = 53 then 1 else if p = 54 then 2 else if p = 55 then 3
  else if p = 56 then 4 else if p = 57 then 5 else 0

/-- The empty handle produced by opening a fresh (all-zero) 64-byte file,
as in the spec's concrete scenario. -/
def scenario64_mq : T_PERSIMQ :=
  { fd := 1, append_ptr := 45, extract_ptr := 45, count_bytes := 0, count_messages := 0,
    file_size := 64 }

/-- A closed (fd = 0) handle whose append and extract pointers differ. -/
def closedHandle : T_PERSIMQ :=
  { fd := 0, append_ptr := 50, extract_ptr := 45, count_bytes := 0, count_messages := 0,
    file_size := 64 }

/-- The 44 CRC-covered header bytes of the state reached by the 70-byte
scenario (magic, append 45, extract 45, bytes 25, messages 1, size 70),
spelled as literals. -/
def headerCore44 : List Nat :=
  [108, 80, 109, 81, 45, 0, 0, 0, 0, 0, 0, 0, 45, 0, 0, 0, 0, 0, 0, 0, 25, 0,
   0, 0, 0, 0, 0, 0, 1, 0, 0, 0, 0, 0, 0, 0, 70, 0, 0, 0, 0, 0, 0, 0]

/-- The 45 header bytes that the close/sync of the 70-byte scenario leaves at
file offset 0: headerCore44 followed by its CRC byte 44. -/
def syncedHeader70 : List Nat :=
  [108, 80, 109, 81, 45, 0, 0, 0, 0, 0, 0, 0, 45, 0, 0, 0, 0, 0, 0, 0, 25, 0,
   0, 0, 0, 0, 0, 0, 1, 0, 0, 0, 0, 0, 0, 0, 70, 0, 0, 0, 0, 0, 0, 0, 44]

/-- A file image given by the literal synced header bytes. -/
def syncedHeaderFile70 : Nat → Nat := fun p => syncedHeader70.getD p 0

theorem mod_small {a n : Nat} (h : a < n) : a % n = a := Nat.mod_eq_of_lt h

theorem mod_shift {a n : Nat} (h1 : n ≤ a) (h2 : a < 2 * n) : a % n = a - n := by
  rw [Nat.mod_eq_sub_mod h1]
  exact Nat.mod_eq_of_lt (by omega)

theorem offset_roll_ge (c hi inc : Nat) : wrap_lo_margin ≤ offset_roll c hi inc :=
  Nat.le_add_left _ _

theorem offset_roll_lt (c hi inc : Nat) (h : wrap_lo_margin < hi) :
    offset_roll c hi inc < hi := by
  unfold offset_roll wrap_lo_margin at *
  have := Nat.mod_lt ((if c < 45 then 45 else c - 45) + inc) (y := hi - 45) (by omega)
  omega

theorem offset_roll_roll (c hi inc : Nat) :
    offset_roll (offset_roll c hi 0) hi inc = offset_roll c hi inc := by
  unfold offset_roll wrap_lo_margin
  rw [if_neg (by omega), Nat.add_sub_cancel, Nat.mod_add_mod]
  simp

theorem offset_roll_norm (c hi inc : Nat) :
    offset_roll c hi inc = ((offset_roll c hi 0 - wrap_lo_margin) + inc) % (hi - wrap_lo_margin)
      + wrap_lo_margin := by
  conv => lhs; rw [← offset_roll_roll c hi inc]
  unfold offset_roll wrap_lo_margin
  rw [if_neg (by omega), Nat.add_sub_cancel, Nat.add_zero]

theorem offset_roll_eval (c hi inc : Nat) (h45 : wrap_lo_margin ≤ c)
    (hlt : c - wrap_lo_margin + inc < hi - wrap_lo_margin) :
    offset_roll c hi inc = c + inc := by
  unfold offset_roll wrap_lo_margin at *
  rw [if_neg (by omega), Nat.mod_eq_of_lt hlt]
  omega

theorem range_map_congr {α : Type} (f g : Nat → α) (n : Nat)
    (h : ∀ i, i < n → f i = g i) : (List.range n).map f = (List.range n).map g := by
  induction n with
  | zero => rfl
  | succ k ih =>
    rw [List.range_succ, List.map_append, List.map_append,
      ih (fun i hik => h i (by omega))]
    simp [h k (by omega)]

theorem PERSIMQ_open_depends_on_header (f g : Nat → Nat) (size : Nat)
    (h : ∀ i, i < 45 → f i = g i) : PERSIMQ_open f size = PERSIMQ_open g size := by
  have hh : readFileHeader f = readFileHeader g := by
    unfold readFileHeader
    rw [h 0 (by omega), h 1 (by omega), h 2 (by omega), h 3 (by omega), h 4 (by omega), h 5 (by omega), h 6 (by omega), h 7 (by omega), h 8 (by omega), h 9 (by omega), h 10 (by omega), h 11 (by omega), h 12 (by omega), h 13 (by omega), h 14 (by omega), h 15 (by omega), h 16 (by omega), h 17 (by omega), h 18 (by omega), h 19 (by omega), h 20 (by omega), h 21 (by omega), h 22 (by omega), h 23 (by omega), h 24 (by omega), h 25 (by omega), h 26 (by omega), h 27 (by omega), h 28 (by omega), h 29 (by omega), h 30 (by omega), h 31 (by omega), h 32 (by omega), h 33 (by omega), h 34 (by omega), h 35 (by omega), h 36 (by omega), h 37 (by omega), h 38 (by omega), h 39 (by omega), h 40 (by omega), h 41 (by omega), h 42 (by omega), h 43 (by omega), h 44 (by omega)]
  have hb : readBytes f 0 44 = readBytes g 0 44 := by
    unfold readBytes
    apply range_map_congr
    intro i hi
    exact h (0 + i) (by omega)
  simp only [PERSIMQ_open, hh, hb]

theorem eval_crc8_append (l1 l2 : List Nat) :
    eval_crc8 (l1 ++ l2) = List.foldl crc8_byte_step (eval_crc8 l1) l2 := by
  unfold eval_crc8
  rw [List.foldl_append]

set_option maxRecDepth 4096 in
theorem crc_headerCore44 : eval_crc8 headerCore44 = 44 := by
  have hsplit : headerCore44
      = [108, 80, 109, 81, 45, 0, 0, 0, 0, 0, 0, 0, 45, 0, 0, 0, 0, 0, 0, 0, 25, 0]
        ++ [0, 0, 0, 0, 0, 0, 1, 0, 0, 0, 0, 0, 0, 0, 70, 0, 0, 0, 0, 0, 0, 0] := by
    decide
  rw [hsplit, eval_crc8_append]
  have h1 : eval_crc8
      [108, 80, 109, 81, 45, 0, 0, 0, 0, 0, 0, 0, 45, 0, 0, 0, 0, 0, 0, 0, 25, 0] = 112 := by
    decide
  rw [h1]
  decide

set_option maxRecDepth 2048 in
theorem fileHeaderBytesOf_scenario70 : fileHeaderBytesOf scenario70_mq2 = syncedHeader70 := by
  simp only [fileHeaderBytesOf]
  have hcore : fileMagic ++ le64_bytes scenario70_mq2.append_ptr
      ++ le64_bytes scenario70_mq2.extract_ptr ++ le64_bytes scenario70_mq2.count_bytes
      ++ le64_bytes scenario70_mq2.count_messages ++ le64_bytes scenario70_mq2.file_size
      = headerCore44 := by decide
  rw [hcore, crc_headerCore44]
  decide

set_option maxRecDepth 2048 in
theorem scenario70_file2_header_bytes :
    ∀ i, i < 45 → scenario70_file2 i = syncedHeaderFile70 i := by
  have hmq : scenario70_push.2.1 = scenario70_mq2 := by decide
  have hfile : scenario70_file2
      = writeBytes scenario70_file1 0
          (fun i => (fileHeaderBytesOf scenario70_push.2.1).getD i 0) wrap_lo_margin := rfl
  intro i hi
  rw [hfile, hmq, fileHeaderBytesOf_scenario70]
  simp only [writeBytes, wrap_lo_margin]
  rw [if_pos ⟨by omega, by omega⟩]
  simp [syncedHeaderFile70]

set_option maxRecDepth 2048 in
theorem open_syncedHeaderFile70 : PERSIMQ_open syncedHeaderFile70 70 = some scenario70_mq2 := by
  have hbytes : readBytes syncedHeaderFile70 0 44 = headerCore44 := by decide
  simp only [PERSIMQ_open]
  rw [if_neg (by decide), if_pos ?hcond]
  case hcond =>
    refine ⟨by decide, ?_, by decide⟩
    rw [hbytes, crc_headerCore44]
    decide
  decide

theorem writeBytes_single_eq_circ (file data : Nat → Nat) (len off hi : Nat)
    (hhi : wrap_lo_margin < hi) (hlen : len < hi - wrap_lo_margin)
    (hsplit : len ≤ hi - offset_roll off hi 0) :
    writeBytes file (offset_roll off hi 0) data len = circWrite file data len off hi := by
  have h45 : 45 ≤ offset_roll off hi 0 := offset_roll_ge off hi 0
  have hlt : offset_roll off hi 0 < hi := offset_roll_lt off hi 0 hhi
  have hhi45 : 45 < hi := hhi
  have hlen45 : len < hi - 45 := hlen
  funext p
  simp only [writeBytes, circWrite, wrap_lo_margin]
  set off2 := offset_roll off hi 0 with hoff2
  by_cases hp : off2 ≤ p ∧ p < off2 + len
  · have harg : p + (hi - 45) - 45 - (off2 - 45) = (p - off2) + (hi - 45) := by omega
    have hj : (p + (hi - 45) - 45 - (off2 - 45)) % (hi - 45) = p - off2 := by
      rw [harg, Nat.add_mod_right]
      exact Nat.mod_eq_of_lt (by omega)
    rw [if_pos hp, if_pos ⟨by omega, by omega, by rw [hj]; omega⟩, hj]
  · rw [if_neg hp]
    by_cases hreg : 45 ≤ p ∧ p < hi
    · have hj : len ≤ (p + (hi - 45) - 45 - (off2 - 45)) % (hi - 45) := by
        by_cases hlo : p < off2
        · rw [Nat.mod_eq_of_lt (by omega)]
          omega
        · have harg : p + (hi - 45) - 45 - (off2 - 45) = (p - off2) + (hi - 45) := by omega
          rw [harg, Nat.add_mod_right, Nat.mod_eq_of_lt (by omega)]
          omega
      rw [if_neg (by intro hcon; exact absurd hcon.2.2 (by omega))]
    · rw [if_neg (fun hcon => hreg ⟨hcon.1, hcon.2.1⟩)]

theorem writeBytes_double_eq_circ (file data : Nat → Nat) (len off hi : Nat)
    (hhi : wrap_lo_margin < hi) (hlen : len < hi - wrap_lo_margin)
    (hsplit : hi - offset_roll off hi 0 < len) :
    writeBytes (writeBytes file (offset_roll off hi 0) data (hi - offset_roll off hi 0))
        wrap_lo_margin (fun i => data (i + (hi - offset_roll off hi 0)))
        (len - (hi - offset_roll off hi 0))
      = circWrite file data len off hi := by
  have h45 : 45 ≤ offset_roll off hi 0 := offset_roll_ge off hi 0
  have hlt : offset_roll off hi 0 < hi := offset_roll_lt off hi 0 hhi
  have hhi45 : 45 < hi := hhi
  have hlen45 : len < hi - 45 := hlen
  funext p
  simp only [writeBytes, circWrite, wrap_lo_margin]
  set off2 := offset_roll off hi 0 with hoff2
  by_cases hpa : 45 ≤ p ∧ p < 45 + (len - (hi - off2))
  · have harg : p + (hi - 45) - 45 - (off2 - 45) = (p - 45) + (hi - off2) := by omega
    have hj : (p + (hi - 45) - 45 - (off2 - 45)) % (hi - 45) = (p - 45) + (hi - off2) := by
      rw [harg]
      exact Nat.mod_eq_of_lt (by omega)
    rw [if_pos hpa, if_pos ⟨by omega, by omega, by rw [hj]; omega⟩, hj]
  · rw [if_neg hpa]
    by_cases hpb : off2 ≤ p ∧ p < off2 + (hi - off2)
    · have harg : p + (hi - 45) - 45 - (off2 - 45) = (p - off2) + (hi - 45) := by omega
      have hj : (p + (hi - 45) - 45 - (off2 - 45)) % (hi - 45) = p - off2 := by
        rw [harg, Nat.add_mod_right]
        exact Nat.mod_eq_of_lt (by omega)
      rw [if_pos hpb, if_pos ⟨by omega, by omega, by rw [hj]; omega⟩, hj]
    · rw [if_neg hpb]
      by_cases hreg : 45 ≤ p ∧ p < hi
      · have hj : len ≤ (p + (hi - 45) - 45 - (off2 - 45)) % (hi - 45) := by
          rw [Nat.mod_eq_of_lt (by omega)]
          omega
        rw [if_neg (by intro hcon; exact absurd hcon.2.2 (by omega))]
      · rw [if_neg (fun hcon => hreg ⟨hcon.1, hcon.2.1⟩)]

theorem readBytes_single_eq_circ (file : Nat → Nat) (len off hi : Nat)
    (hhi : wrap_lo_margin < hi) (hsplit : len ≤ hi - offset_roll off hi 0) :
    readBytes file (offset_roll off hi 0) len = circRead file len off hi := by
  have h45 : 45 ≤ offset_roll off hi 0 := offset_roll_ge off hi 0
  have hlt : offset_roll off hi 0 < hi := offset_roll_lt off hi 0 hhi
  unfold readBytes circRead
  apply range_map_congr
  intro i hilt
  have hroll : offset_roll off hi i = offset_roll off hi 0 + i := by
    rw [← offset_roll_roll off hi i]
    exact offset_roll_eval (offset_roll off hi 0) hi i (offset_roll_ge off hi 0) (by
      show offset_roll off hi 0 - 45 + i < hi - 45
      omega)
  rw [hroll]

theorem readBytes_double_eq_circ (file : Nat → Nat) (len off hi : Nat)
    (hhi : wrap_lo_margin < hi) (hlen : len < hi - wrap_lo_margin)
    (hsplit : hi - offset_roll off hi 0 < len) :
    readBytes file (offset_roll off hi 0) (hi - offset_roll off hi 0) ++
        readBytes file wrap_lo_margin (len - (hi - offset_roll off hi 0))
      = circRead file len off hi := by
  have h45 : 45 ≤ offset_roll off hi 0 := offset_roll_ge off hi 0
  have hlt : offset_roll off hi 0 < hi := offset_roll_lt off hi 0 hhi
  have hhi45 : 45 < hi := hhi
  have hlen45 : len < hi - 45 := hlen
  unfold readBytes circRead
  have hsum : len = (hi - offset_roll off hi 0) + (len - (hi - offset_roll off hi 0)) := by
    omega
  conv_rhs => rw [hsum]
  rw [List.range_add, List.map_append, List.map_map]
  congr 1
  · apply range_map_congr
    intro i hilt
    have hroll : offset_roll off hi i = offset_roll off hi 0 + i := by
      rw [← offset_roll_roll off hi i]
      exact offset_roll_eval (offset_roll off hi 0) hi i (offset_roll_ge off hi 0) (by
        show offset_roll off hi 0 - 45 + i < hi - 45
        omega)
    rw [hroll]
  · apply range_map_congr
    intro i hilt
    show file (wrap_lo_margin + i)
      = file (offset_roll off hi ((hi - offset_roll off hi 0) + i))
    have hroll : offset_roll off hi ((hi - offset_roll off hi 0) + i) = 45 + i := by
      rw [offset_roll_norm]
      simp only [wrap_lo_margin]
      have harg : offset_roll off hi 0 - 45 + ((hi - offset_roll off hi 0) + i)
          = i + (hi - 45) := by omega
      rw [harg, Nat.add_mod_right, Nat.mod_eq_of_lt (by omega)]
      omega
    rw [hroll]
    show file (45 + i) = file (45 + i)
    rfl

theorem circRead_circWrite (file data : Nat → Nat) (len off hi : Nat)
    (hhi : wrap_lo_margin < hi) (hlen : len < hi - wrap_lo_margin) :
    circRead (circWrite file data len off hi) len off hi = (List.range len).map data := by
  have h45 : 45 ≤ offset_roll off hi 0 := offset_roll_ge off hi 0
  have hlt : offset_roll off hi 0 < hi := offset_roll_lt off hi 0 hhi
  have hhi45 : 45 < hi := hhi
  have hlen45 : len < hi - 45 := hlen
  unfold circRead
  apply range_map_congr
  intro i hilt
  have hp45 : 45 ≤ offset_roll off hi i := offset_roll_ge off hi i
  have hphi : offset_roll off hi i < hi := offset_roll_lt off hi i hhi
  have hnorm := offset_roll_norm off hi i
  simp only [wrap_lo_margin] at hnorm
  have hj : (offset_roll off hi i + (hi - 45) - 45 - (offset_roll off hi 0 - 45)) % (hi - 45)
      = i := by
    by_cases hcase : (offset_roll off hi 0 - 45) + i < hi - 45
    · have ht : ((offset_roll off hi 0 - 45) + i) % (hi - 45) = (offset_roll off hi 0 - 45) + i :=
        Nat.mod_eq_of_lt hcase
      rw [hnorm, ht]
      have harg : offset_roll off hi 0 - 45 + i + 45 + (hi - 45) - 45 - (offset_roll off hi 0 - 45)
          = i + (hi - 45) := by omega
      rw [harg, Nat.add_mod_right]
      exact Nat.mod_eq_of_lt (by omega)
    · have hslt : offset_roll off hi 0 - 45 < hi - 45 := by omega
      have ht : ((offset_roll off hi 0 - 45) + i) % (hi - 45)
          = (offset_roll off hi 0 - 45) + i - (hi - 45) :=
        mod_shift (by omega) (by omega)
      rw [hnorm, ht]
      have harg : offset_roll off hi 0 - 45 + i - (hi - 45) + 45 + (hi - 45) - 45
            - (offset_roll off hi 0 - 45) = i := by omega
      rw [harg]
      exact Nat.mod_eq_of_lt (by omega)
  simp only [circWrite, wrap_lo_margin]
  rw [if_pos ⟨hp45, hphi, by rw [hj]; omega⟩, hj]

/-- Claim C9, counterexample: a zero-length transfer lies inside the claimed
domain (0 is strictly below the capacity 15 of a 60-byte region) yet
wrapped_io reports failure in both directions — the multiread/multiwrite
do-while loops issue one zero-byte syscall, see a non-positive result and
return false — instead of trivially moving the requested zero bytes as an
equivalent naive transfer would. -/
theorem wrapped_io_zero_length_cex :
    (0 : Nat) < 60 - wrap_lo_margin
    ∧ wrapped_io_write zeroFile (fun i => i + 1) 0 50 60 = none
    ∧ wrapped_io_read zeroFile 0 50 60 = none :=
  ⟨by decide, rfl, rfl⟩

/-- Claim C9 as amended: for every transfer length with 1 <= length strictly
below the data-region capacity, wrapped_io (write and read direction) is
equivalent to the naive circular transfer (one contiguous operation when the
length fits below the high margin, otherwise two chunks), and split writes
followed by split reads reassemble the original data; a length of at least
the capacity is rejected as a hard error with no I/O performed; and a
zero-length request also returns failure with no bytes moved, because the
byte-level retry loop treats the result of a zero-byte transfer as an
error. -/
theorem wrapped_io_refines_naive_transfer (file data : Nat → Nat) (len off hi : Nat)
    (hhi : wrap_lo_margin < hi) :
    (1 ≤ len → len < hi - wrap_lo_margin →
        wrapped_io_write file data len off hi
            = some (circWrite file data len off hi, offset_roll off hi len)
          ∧ wrapped_io_read file len off hi
            = some (circRead file len off hi, offset_roll off hi len)
          ∧ circRead (circWrite file data len off hi) len off hi = (List.range len).map data)
    ∧ (hi - wrap_lo_margin ≤ len →
        wrapped_io_write file data len off hi = none
          ∧ wrapped_io_read file len off hi = none)
    ∧ (len = 0 →
        wrapped_io_write file data len off hi = none
          ∧ wrapped_io_read file len off hi = none) := by
  refine ⟨?_, ?_, ?_⟩
  · intro hpos hlen
    refine ⟨?_, ?_, circRead_circWrite file data len off hi hhi hlen⟩
    · simp only [wrapped_io_write]
      rw [if_neg (by omega)]
      by_cases hsplit : len ≤ hi - offset_roll off hi 0
      · rw [if_pos hsplit, if_neg (by omega),
          writeBytes_single_eq_circ file data len off hi hhi hlen hsplit, offset_roll_roll]
      · rw [if_neg hsplit,
          writeBytes_double_eq_circ file data len off hi hhi hlen (by omega),
          offset_roll_roll]
    · simp only [wrapped_io_read]
      rw [if_neg (by omega)]
      by_cases hsplit : len ≤ hi - offset_roll off hi 0
      · rw [if_pos hsplit, if_neg (by omega),
          readBytes_single_eq_circ file len off hi hhi hsplit, offset_roll_roll]
      · rw [if_neg hsplit,
          readBytes_double_eq_circ file len off hi hhi hlen (by omega), offset_roll_roll]
  · intro hlen
    constructor
    · simp only [wrapped_io_write]
      rw [if_pos hlen]
    · simp only [wrapped_io_read]
      rw [if_pos hlen]
  · intro h0
    subst h0
    constructor
    · simp only [wrapped_io_write]
      rw [if_neg (by omega), if_pos (by omega)]
      simp
    · simp only [wrapped_io_read]
      rw [if_neg (by omega), if_pos (by omega)]
      simp

/-- Witness for claim C9 (amended) at a concrete wrapping transfer:
wrap_hi_margin 60 (capacity 15), start offset 50, length 12, which crosses
the high margin (first chunk 60 - 50 = 10 bytes, remaining 2 bytes at the
region start). -/
theorem wrapped_io_refines_naive_transfer_witness :
    wrap_lo_margin < 60
    ∧ ((1 ≤ 12 → 12 < 60 - wrap_lo_margin →
        wrapped_io_write zeroFile (fun i => i + 1) 12 50 60
            = some (circWrite zeroFile (fun i => i + 1) 12 50 60, offset_roll 50 60 12)
          ∧ wrapped_io_read zeroFile 12 50 60
            = some (circRead zeroFile 12 50 60, offset_roll 50 60 12)
          ∧ circRead (circWrite zeroFile (fun i => i + 1) 12 50 60) 12 50 60
            = (List.range 12).map (fun i => i + 1))
      ∧ (60 - wrap_lo_margin ≤ 12 →
        wrapped_io_write zeroFile (fun i => i + 1) 12 50 60 = none
          ∧ wrapped_io_read zeroFile 12 50 60 = none)
      ∧ ((12 : Nat) = 0 →
        wrapped_io_write zeroFile (fun i => i + 1) 12 50 60 = none
          ∧ wrapped_io_read zeroFile 12 50 60 = none)) :=
  ⟨by decide, wrapped_io_refines_naive_transfer zeroFile (fun i => i + 1) 12 50 60 (by decide)⟩


/-- Claim C1, counterexample: on a freshly opened queue backed by a 64-byte
file the 17-byte test message does NOT push successfully — the data region
holds only 64 - 45 = 19 bytes while the record needs 8 + 17 = 25, so
PERSIMQ_push fails its bytes_free check. -/
theorem scenario64_push_fails :
    PERSIMQ_open zeroFile 64 = some scenario64_mq
    ∧ (PERSIMQ_push scenario64_mq zeroFile testMessage).1 = false := by
  decide

set_option maxRecDepth 4096 in
/-- Claim C1 as amended: same scenario on a 70-byte file (the smallest size
whose free space fits the 25-byte record): open a fresh file, push the
17-byte test message (succeeds), close (syncs the header), reopen the same
70-byte file, observe is_empty = false, get returns the same 17 bytes, pop
succeeds, and is_empty is then true. -/
theorem scenario70_roundtrip :
    PERSIMQ_open zeroFile 70 = some scenario70_mq0
    ∧ scenario70_push.1 = true
    ∧ scenario70_close.1 = true
    ∧ PERSIMQ_open scenario70_file2 70 = some scenario70_mq2
    ∧ PERSIMQ_is_empty scenario70_mq2 = false
    ∧ PERSIMQ_get scenario70_mq2 scenario70_file2 17
        = (true, scenario70_mq2, some 17, some testMessage)
    ∧ scenario70_pop.1 = true
    ∧ PERSIMQ_is_empty scenario70_pop.2 = true := by
  refine ⟨by decide, by decide, by decide, ?_, by decide, by decide, by decide, by decide⟩
  rw [PERSIMQ_open_depends_on_header scenario70_file2 syncedHeaderFile70 70
    scenario70_file2_header_bytes]
  exact open_syncedHeaderFile70

/-- Claim C2: on any open handle, whenever bytes_free is smaller than the
message-header size plus the payload length, push fails and leaves both the
handle and the file completely unchanged. -/
theorem push_insufficient_space_unchanged (mq : T_PERSIMQ) (file : Nat → Nat)
    (message : List Nat) (hfd : mq.fd ≠ 0)
    (hfree : PERSIMQ_bytes_free mq < message_header_size + message.length) :
    PERSIMQ_push mq file message = (false, mq, file) := by
  simp [PERSIMQ_push, hfd, hfree]

/-- Witness for claim C2: the 64-byte-file state of the concrete scenario,
where bytes_free = 19 < 25. -/
theorem push_insufficient_space_unchanged_witness :
    scenario64_mq.fd ≠ 0
    ∧ PERSIMQ_bytes_free scenario64_mq < message_header_size + testMessage.length
    ∧ PERSIMQ_push scenario64_mq zeroFile testMessage = (false, scenario64_mq, zeroFile) :=
  ⟨by decide, by decide,
    push_insufficient_space_unchanged scenario64_mq zeroFile testMessage (by decide) (by decide)⟩

/-- Claim C4: on any open queue, pop_n with a request of at least the live
message count succeeds, zeroes both counts and sets the extract pointer to
the append pointer (the clear-equivalent emptied state as observed through
pointers and counts). -/
theorem pop_n_overrequest_clears (mq : T_PERSIMQ) (file : Nat → Nat) (n : Nat)
    (_hfd : mq.fd ≠ 0) (hn : mq.count_messages ≤ n) :
    PERSIMQ_pop_n mq file n
        = (true, { mq with extract_ptr := mq.append_ptr, count_bytes := 0, count_messages := 0 })
    ∧ (PERSIMQ_pop_n mq file n).2.count_bytes = 0
    ∧ (PERSIMQ_pop_n mq file n).2.count_messages = 0
    ∧ (PERSIMQ_pop_n mq file n).2.extract_ptr = (PERSIMQ_pop_n mq file n).2.append_ptr := by
  simp [PERSIMQ_pop_n, hn]

/-- Witness for claim C4: a queue holding one message, asked to pop 10. -/
theorem pop_n_overrequest_clears_witness :
    mqOneSmall.fd ≠ 0 ∧ mqOneSmall.count_messages ≤ 10
    ∧ (PERSIMQ_pop_n mqOneSmall fileOneSmall 10
        = (true,
            { mqOneSmall with
                extract_ptr := mqOneSmall.append_ptr
                count_bytes := 0
                count_messages := 0 })
      ∧ (PERSIMQ_pop_n mqOneSmall fileOneSmall 10).2.count_bytes = 0
      ∧ (PERSIMQ_pop_n mqOneSmall fileOneSmall 10).2.count_messages = 0
      ∧ (PERSIMQ_pop_n mqOneSmall fileOneSmall 10).2.extract_ptr
          = (PERSIMQ_pop_n mqOneSmall fileOneSmall 10).2.append_ptr) :=
  ⟨by decide, by decide,
    pop_n_overrequest_clears mqOneSmall fileOneSmall 10 (by decide) (by decide)⟩

/-- Claim C5, code behaviour at the failing input: PERSIMQ_pop_n does not
guard against a closed handle (fd = 0), unlike every other mutating
operation; on a closed handle with count_messages = 0 it takes the fast path,
returns success, and even mutates the extract pointer. -/
theorem pop_n_closed_handle_succeeds :
    PERSIMQ_pop_n closedHandle zeroFile 0
      = (true, { closedHandle with extract_ptr := 50 }) := by
  decide

/-- Claim C6, code behaviour at the failing input: get_all on a queue holding
one 5-byte message, called with a 3-byte buffer, copies zero messages (empty
payload list, total_size 0) yet reports messages_read = 1, because the C loop
increments message_idx before the buffer-capacity check. -/
theorem get_all_overcounts_on_buffer_stop :
    PERSIMQ_get_all mqOneSmall fileOneSmall 3 10
      = (true, mqOneSmall, [], some (0, 1)) := by
  decide

/-- Claim C7, counterexample: for currentOffset 10 (below the data-region
start 45), dataRegionEnd 145 and increment 0, offset_roll returns 90, not the
claimed dataRegionStart + ((clamped currentOffset - start) + 0) mod capacity
= 45: the C code substitutes wrap_lo_margin for sub_offset without
subtracting the base. -/
theorem offset_roll_low_offset_cex :
    offset_roll 10 145 0 = 90
    ∧ offset_roll 10 145 0 ≠ 45 + ((45 - 45 + 0) % (145 - 45)) := by
  decide

/-- Claim C7 as amended: for offsets at or above the data-region start the
claimed formula start + ((c - start + inc) mod capacity) holds; for offsets
below the start, sub_offset is replaced by the start value itself without
subtracting the base, so the result is start + ((start + inc) mod capacity). -/
theorem offset_roll_formula (c e inc : Nat) (_he : wrap_lo_margin < e) :
    (wrap_lo_margin ≤ c →
        offset_roll c e inc = ((c - wrap_lo_margin + inc) % (e - wrap_lo_margin))
          + wrap_lo_margin)
    ∧ (c < wrap_lo_margin →
        offset_roll c e inc = ((wrap_lo_margin + inc) % (e - wrap_lo_margin))
          + wrap_lo_margin) := by
  unfold offset_roll wrap_lo_margin
  constructor <;> intro hc
  · rw [if_neg (by omega)]
  · rw [if_pos (by omega)]

/-- Witness for claim C7 (amended), at c = 100, e = 145, inc = 7. -/
theorem offset_roll_formula_witness :
    wrap_lo_margin < 145
    ∧ ((wrap_lo_margin ≤ 100 →
        offset_roll 100 145 7 = ((100 - wrap_lo_margin + 7) % (145 - wrap_lo_margin))
          + wrap_lo_margin)
      ∧ (100 < wrap_lo_margin →
        offset_roll 100 145 7 = ((wrap_lo_margin + 7) % (145 - wrap_lo_margin))
          + wrap_lo_margin)) :=
  ⟨by decide, offset_roll_formula 100 145 7 (by decide)⟩

/-- Claim C8: for every currentOffset and increment and every wrap_hi_margin
strictly above the data-region start, offset_roll returns a value inside
[wrap_lo_margin, wrap_hi_margin). -/
theorem offset_roll_in_range (c e inc : Nat) (he : wrap_lo_margin < e) :
    wrap_lo_margin ≤ offset_roll c e inc ∧ offset_roll c e inc < e :=
  ⟨offset_roll_ge c e inc, offset_roll_lt c e inc he⟩

/-- Witness for claim C8, at c = 10, e = 145, inc = 3. -/
theorem offset_roll_in_range_witness :
    wrap_lo_margin < 145
    ∧ wrap_lo_margin ≤ offset_roll 10 145 3 ∧ offset_roll 10 145 3 < 145 :=
  ⟨by decide, (offset_roll_in_range 10 145 3 (by decide)).1,
    (offset_roll_in_range 10 145 3 (by decide)).2⟩

/-- Claim C3: for every file contents and requested size (above the sanity
minimum of header + one minimal record), open adopts the on-disk header's
pointers and counts when the magic tag matches, the stored checksum equals
the CRC8 recomputed over the 44 preceding header bytes, and the recorded
file size equals the requested size; in every other case open succeeds with
the empty state (append = extract = data-region start, zero counts). -/
theorem open_adopts_header_iff_valid (file : Nat → Nat) (size : Nat) (hsize : 54 < size) :
    ((readFileHeader file).ID = fileMagic
        ∧ eval_crc8 (readBytes file 0 44) = (readFileHeader file).crc
        ∧ size = (readFileHeader file).file_size →
      PERSIMQ_open file size
        = some { fd := 1, append_ptr := (readFileHeader file).append_ptr,
                 extract_ptr := (readFileHeader file).extract_ptr,
                 count_bytes := (readFileHeader file).count_bytes,
                 count_messages := (readFileHeader file).count_messages,
                 file_size := size })
    ∧ (¬ ((readFileHeader file).ID = fileMagic
        ∧ eval_crc8 (readBytes file 0 44) = (readFileHeader file).crc
        ∧ size = (readFileHeader file).file_size) →
      PERSIMQ_open file size
        = some { fd := 1, append_ptr := wrap_lo_margin, extract_ptr := wrap_lo_margin,
                 count_bytes := 0, count_messages := 0, file_size := size }) := by
  have hgt : ¬ (size ≤ wrap_lo_margin + message_header_size + 1) := by
    simp only [wrap_lo_margin, message_header_size]
    omega
  constructor <;> intro hcond
  · simp only [PERSIMQ_open]
    rw [if_neg hgt, if_pos hcond]
  · simp only [PERSIMQ_open]
    rw [if_neg hgt, if_neg hcond]

/-- Witness for claim C3: a 55-byte all-zero file, whose header tag does not
match, so open yields the empty state. -/
theorem open_adopts_header_iff_valid_witness :
    54 < 55
    ∧ (((readFileHeader zeroFile).ID = fileMagic
        ∧ eval_crc8 (readBytes zeroFile 0 44) = (readFileHeader zeroFile).crc
        ∧ 55 = (readFileHeader zeroFile).file_size →
      PERSIMQ_open zeroFile 55
        = some { fd := 1, append_ptr := (readFileHeader zeroFile).append_ptr,
                 extract_ptr := (readFileHeader zeroFile).extract_ptr,
                 count_bytes := (readFileHeader zeroFile).count_bytes,
                 count_messages := (readFileHeader zeroFile).count_messages,
                 file_size := 55 })
      ∧ (¬ ((readFileHeader zeroFile).ID = fileMagic
        ∧ eval_crc8 (readBytes zeroFile 0 44) = (readFileHeader zeroFile).crc
        ∧ 55 = (readFileHeader zeroFile).file_size) →
      PERSIMQ_open zeroFile 55
        = some { fd := 1, append_ptr := wrap_lo_margin, extract_ptr := wrap_lo_margin,
                 count_bytes := 0, count_messages := 0, file_size := 55 })) :=
  ⟨by decide, open_adopts_header_iff_valid zeroFile 55 (by decide)⟩

/-- Claim C10: on an open non-empty queue whose first message header carries a
valid tag, get with a buffer smaller than the recorded message length fails
with the handle unchanged, while the recorded length is still delivered
through the message_size out-parameter. -/
theorem get_small_buffer_reports_size (mq : T_PERSIMQ) (file : Nat → Nat)
    (buffer_size : Nat) (hdr : TMessageHeader) (hfd : mq.fd ≠ 0)
    (hmsg : PERSIMQ_messages_available mq ≠ 0)
    (hhdr : PERSIMQ_read_message_header mq file mq.extract_ptr = (some hdr, mq))
    (hbuf : buffer_size < hdr.message_size) :
    PERSIMQ_get mq file buffer_size = (false, mq, some hdr.message_size, none) := by
  simp [PERSIMQ_get, hfd, hmsg, hhdr, hbuf]

set_option maxRecDepth 2048 in
/-- Witness for claim C10: a 70-byte queue holding one intact 5-byte message,
queried with a 3-byte buffer: get fails, reports length 5, changes nothing. -/
theorem get_small_buffer_reports_size_witness :
    mqOneSmall.fd ≠ 0
    ∧ PERSIMQ_messages_available mqOneSmall ≠ 0
    ∧ PERSIMQ_read_message_header mqOneSmall fileOneSmall mqOneSmall.extract_ptr
        = (some { ID := [80, 77, 81], message_crc := 56, message_size := 5 }, mqOneSmall)
    ∧ (3 : Nat) < 5
    ∧ PERSIMQ_get mqOneSmall fileOneSmall 3 = (false, mqOneSmall, some 5, none) :=
  ⟨by decide, by decide, by decide, by decide,
    get_small_buffer_reports_size mqOneSmall fileOneSmall 3
      { ID := [80, 77, 81], message_crc := 56, message_size := 5 }
      (by decide) (by decide) (by decide) (by decide)⟩
